import Mathlib

/-!
# Verification of the job-tracker core logic

Shallow embedding of the match-scoring / filtering / sorting / status-tracking
core of the job-tracker web application, together with proofs of its stated
properties.

Conventions of the embedding:
* Browser `localStorage` is modelled as explicit state passed to and returned
  from each operation.  Values are kept in parsed form; the JSON round-trip of
  `localStorage` is modelled at the load boundary, where `JSON.parse` becomes
  an abstract fallible parse `String → Option α` (the `try/catch` of the
  source is the `Option` match).
* TypeScript `Record<string, T>` objects become association lists in which a
  key occurs at most once (assignment updates in place or appends).
* `Array.prototype.sort` (stable per the ECMAScript specification) becomes
  `List.insertionSort`, a stable sort, applied to the relation expressed by
  the source's comparator (`cmp a b ≤ 0`).
* `new Date()` timestamps become explicit `String` parameters.
-/

namespace JobTracker

/-- The status enum from `src/app/components/jobs/JobCard.tsx`:
`"Not Applied" | "Applied" | "Rejected" | "Selected"`. -/
inductive JobStatus where
  | notApplied
  | applied
  | rejected
  | selected
deriving DecidableEq, Repr

/-- `StatusHistoryEntry` from `src/app/lib/jobStatus.ts`. -/
structure StatusHistoryEntry where
  jobId : String
  jobTitle : String
  company : String
  status : JobStatus
  changedAt : String
deriving DecidableEq, Repr

/-- The persisted `Record<string, JobStatus>` status map. -/
def StatusMap := List (String × JobStatus)

/-- Lookup `statuses[jobId]`: `some` if the key is present, `none` otherwise
(JavaScript `undefined`). -/
def lookupStatus : List (String × JobStatus) → String → Option JobStatus
  | [], _ => none
  | (k, v) :: t, id => if k = id then some v else lookupStatus t id

/-- Assignment `statuses[jobId] = status`: updates the entry in place if the
key is present, otherwise appends it. -/
def assignStatus : List (String × JobStatus) → String → JobStatus →
    List (String × JobStatus)
  | [], id, s => [(id, s)]
  | (k, v) :: t, id, s =>
      if k = id then (id, s) :: t else (k, v) :: assignStatus t id s

/-- `getJobStatus` of `src/app/lib/jobStatus.ts` applied to a loaded map:
`statuses[jobId] || "Not Applied"`. -/
def getJobStatus (statuses : List (String × JobStatus)) (jobId : String) :
    JobStatus :=
  (lookupStatus statuses jobId).getD JobStatus.notApplied

/-- The two persisted stores touched by `saveJobStatus`: the status map under
`jobTrackerStatus` and the history list under `jobTrackerStatusHistory`. -/
structure StatusStore where
  statusMap : List (String × JobStatus)
  history : List StatusHistoryEntry
deriving DecidableEq, Repr

/-- `recordStatusHistory` of `src/app/lib/jobStatus.ts`: prepends the new
entry and keeps only the first 20 entries. -/
def recordStatusHistory (history : List StatusHistoryEntry) (jobId jobTitle
    company : String) (status : JobStatus) (now : String) :
    List StatusHistoryEntry :=
  let newEntry : StatusHistoryEntry :=
    { jobId := jobId, jobTitle := jobTitle, company := company,
      status := status, changedAt := now }
  (newEntry :: history).take 20

/-- `saveJobStatus` of `src/app/lib/jobStatus.ts`.  Returns the store
unchanged when `statuses[jobId] === status`; otherwise writes the new status
and, when the status is not the default, records it to history. -/
def saveJobStatus (st : StatusStore) (jobId : String) (status : JobStatus)
    (jobTitle company : String) (now : String) : StatusStore :=
  if lookupStatus st.statusMap jobId = some status then st
  else
    { statusMap := assignStatus st.statusMap jobId status,
      history :=
        if status = JobStatus.notApplied then st.history
        else recordStatusHistory st.history jobId jobTitle company status now }

/-- `loadJobStatuses` of `src/app/lib/jobStatus.ts`: `saved` is the raw value
under the `jobTrackerStatus` key (`none` when absent) and `parse` is the
abstract `JSON.parse`; the `try/catch` returns `{}` on failure. -/
def loadJobStatuses (saved : Option String)
    (parse : String → Option (List (String × JobStatus))) :
    List (String × JobStatus) :=
  match saved with
  | none => []
  | some s =>
      match parse s with
      | some m => m
      | none => []

/-- `loadStatusHistory` of `src/app/lib/jobStatus.ts`: same shape as
`loadJobStatuses`, with `[]` as the fallback. -/
def loadStatusHistory (saved : Option String)
    (parse : String → Option (List StatusHistoryEntry)) :
    List StatusHistoryEntry :=
  match saved with
  | none => []
  | some s =>
      match parse s with
      | some h => h
      | none => []

/-- One dashboard status change: `(jobId, status, jobTitle, company, now)`. -/
def SaveOp := String × JobStatus × String × String × String

/-- A sequence of `saveJobStatus` calls, applied left to right. -/
def runSaves (st : StatusStore) (ops : List SaveOp) : StatusStore :=
  ops.foldl
    (fun st op => saveJobStatus st op.1 op.2.1 op.2.2.1 op.2.2.2.1 op.2.2.2.2)
    st

/-- The status used by the `i`-th change of the 21-change scenario: cycles
through the three non-default statuses, so consecutive changes differ. -/
def cycleStatus (i : Nat) : JobStatus :=
  match i % 3 with
  | 0 => JobStatus.applied
  | 1 => JobStatus.rejected
  | _ => JobStatus.selected

/-- 21 sequential status changes for one job, all non-default, each differing
from the stored value, with timestamps `"t1"` … `"t21"`. -/
def ops21 : List SaveOp :=
  (List.range 21).map
    (fun i => ("j", cycleStatus i, "Title", "Co", "t" ++ toString (i + 1)))

/-- A job posting, the immutable record of the job store.  `experience` is
the free-text years value the dashboard compares against the filter select
value. -/
structure Job where
  id : String
  title : String
  company : String
  location : String
  mode : String
  experience : String
  salaryRange : String
  skills : List String
  source : String
  postedDaysAgo : Nat
  applyUrl : String
deriving DecidableEq, Repr

/-- User preferences, the matching criteria persisted wholesale. -/
structure Preferences where
  roleKeywords : List String
  locations : List String
  skills : List String
  minMatchScore : Nat
deriving DecidableEq, Repr

/-- Whether `pat` is an initial segment of `cs` (character lists). -/
def beginsWith : List Char → List Char → Bool
  | [], _ => true
  | _ :: _, [] => false
  | a :: as, b :: bs => a == b && beginsWith as bs

/-- Whether `pat` occurs as a contiguous run inside the character list
(the semantics of JavaScript `String.prototype.includes`). -/
def containsSub (pat : List Char) : List Char → Bool
  | [] => pat.isEmpty
  | c :: t => beginsWith pat (c :: t) || containsSub pat t

/-- JavaScript `hay.includes(pat)`. -/
def strIncludes (hay pat : String) : Bool :=
  containsSub pat.data hay.data

/-- JavaScript `s.toLowerCase()` (over the characters of the string). -/
def lowerStr (s : String) : String :=
  ⟨s.data.map Char.toLower⟩

/-- Modelled from the spec: the count of preference role keywords found as
case-insensitive substrings of the job title (spec §4.1).  The scorer module
`src/app/lib/matchScore.ts` is not among the repository sources, only its
callers are. -/
def keywordMatches (job : Job) (prefs : Preferences) : Nat :=
  (prefs.roleKeywords.filter
    (fun k => strIncludes (lowerStr job.title) (lowerStr k))).length

/-- Modelled from the spec: the count of preference skills present among the
job's skills, case-insensitively (spec §4.1). -/
def skillMatches (job : Job) (prefs : Preferences) : Nat :=
  (prefs.skills.filter
    (fun s => job.skills.any (fun js => lowerStr js == lowerStr s))).length

/-- Modelled from the spec: whether any preferred location equals the job
location (spec §4.1). -/
def locationMatch (job : Job) (prefs : Preferences) : Bool :=
  prefs.locations.any (fun l => l == job.location)

/-- Modelled from the spec: `calculateMatchScore` of the missing
`src/app/lib/matchScore.ts`.  Per spec §4.1 it is a pure function of matched
role-keyword substrings of the title, matched skills, and a location match,
deterministic and monotonic in the number of matching criteria, saturating
at 100 and floored at 0; the exact weights are an internal policy constant
table (spec §9), taken here as keyword 30, skill 25, location 20. -/
def calculateMatchScore (job : Job) (prefs : Preferences) : Nat :=
  min 100 (keywordMatches job prefs * 30 + skillMatches job prefs * 25 +
    (if locationMatch job prefs then 20 else 0))

/-- The example job of spec §8: `{title:"Backend Engineer",
skills:["Go","SQL"]}`. -/
def jobBackend : Job :=
  { id := "1", title := "Backend Engineer", company := "Acme",
    location := "Bengaluru", mode := "Remote", experience := "3",
    salaryRange := "₹15-25 LPA", skills := ["Go", "SQL"],
    source := "LinkedIn", postedDaysAgo := 2,
    applyUrl := "https://example.com/1" }

/-- The example preferences of spec §8: `{roleKeywords:["backend"],
skills:["Go"], minMatchScore:40}`. -/
def prefsMatching : Preferences :=
  { roleKeywords := ["backend"], locations := [], skills := ["Go"],
    minMatchScore := 40 }

/-- Preferences with no matching keyword or skill for `jobBackend`. -/
def prefsNonMatching : Preferences :=
  { roleKeywords := ["designer"], locations := [], skills := ["Rust"],
    minMatchScore := 40 }

/-- A job carrying the dashboard's computed `matchScore` field
(`undefined`, i.e. `none`, when no preferences are set). -/
structure SJob extends Job where
  matchScore : Option Nat
deriving DecidableEq, Repr

/-- `jobsWithScores` of `src/app/dashboard/page.tsx`: score every job, or
attach `undefined` when preferences are absent. -/
def jobsWithScores (jobs : List Job) (prefs : Option Preferences) :
    List SJob :=
  match prefs with
  | none => jobs.map (fun j => { toJob := j, matchScore := none })
  | some p =>
      jobs.map (fun j => { toJob := j,
                           matchScore := some (calculateMatchScore j p) })

/-- The dashboard filter state.  Empty strings are inactive filters
(JavaScript falsiness); the status filter is `none` when the empty option is
selected. -/
structure Filters where
  keyword : String
  location : String
  mode : String
  experience : String
  source : String
  status : Option JobStatus
  sort : String
deriving Repr

/-- `preferences?.minMatchScore ?? 40` of the dashboard. -/
def dashboardMinScore (prefs : Option Preferences) : Nat :=
  (prefs.map Preferences.minMatchScore).getD 40

/-- The filtering stage of `filteredJobs` in `src/app/dashboard/page.tsx`:
each active filter narrows the running result in turn. -/
def applyFilters (showOnlyMatches : Bool) (prefs : Option Preferences)
    (f : Filters) (statuses : List (String × JobStatus)) (l : List SJob) :
    List SJob :=
  let result := l
  let result :=
    if showOnlyMatches && prefs.isSome then
      result.filter
        (fun j => decide (dashboardMinScore prefs ≤ j.matchScore.getD 0))
    else result
  let result :=
    if f.keyword != "" then
      result.filter
        (fun j => strIncludes (lowerStr j.title) (lowerStr f.keyword) ||
          strIncludes (lowerStr j.company) (lowerStr f.keyword))
    else result
  let result :=
    if f.location != "" then result.filter (fun j => j.location == f.location)
    else result
  let result :=
    if f.mode != "" then result.filter (fun j => j.mode == f.mode)
    else result
  let result :=
    if f.experience != "" then
      result.filter (fun j => j.experience == f.experience)
    else result
  let result :=
    if f.source != "" then result.filter (fun j => j.source == f.source)
    else result
  let result :=
    match f.status with
    | none => result
    | some s => result.filter (fun j => getJobStatus statuses j.id == s)
  result

/-- The predicates of the active filters of `applyFilters`, in source
order. -/
def activePreds (showOnlyMatches : Bool) (prefs : Option Preferences)
    (f : Filters) (statuses : List (String × JobStatus)) :
    List (SJob → Bool) :=
  (if showOnlyMatches && prefs.isSome then
    [fun j => decide (dashboardMinScore prefs ≤ j.matchScore.getD 0)]
   else []) ++
  (if f.keyword != "" then
    [fun j => strIncludes (lowerStr j.title) (lowerStr f.keyword) ||
      strIncludes (lowerStr j.company) (lowerStr f.keyword)]
   else []) ++
  (if f.location != "" then [fun j => j.location == f.location] else []) ++
  (if f.mode != "" then [fun j => j.mode == f.mode] else []) ++
  (if f.experience != "" then [fun j => j.experience == f.experience]
   else []) ++
  (if f.source != "" then [fun j => j.source == f.source] else []) ++
  (match f.status with
   | none => []
   | some s => [fun j => getJobStatus statuses j.id == s])

/-- Sequential application of a list of filter predicates, first to last. -/
def foldFilters (ps : List (SJob → Bool)) (l : List SJob) : List SJob :=
  ps.foldl (fun acc p => acc.filter p) l

/-- The value parseInt extracts from the first maximal digit run of the
salary string (`s.match(/\d+/)`), `0` when the string has no digit. -/
def digitsToNat (ds : List Char) : Nat :=
  ds.foldl (fun n c => n * 10 + (c.toNat - 48)) 0

/-- Scan for the first digit; on finding one, read the whole digit run. -/
def firstNumAux : List Char → Nat
  | [] => 0
  | c :: t =>
      if c.isDigit then digitsToNat (c :: t.takeWhile Char.isDigit)
      else firstNumAux t

/-- `getFirstNum` of the dashboard's salary sort: the first integer embedded
in the free-text salary string, `0` if none. -/
def getFirstNum (s : String) : Nat :=
  firstNumAux s.data

/-- The "latest" comparator ordering: ascending `postedDaysAgo`. -/
def latestRel (a b : SJob) : Prop :=
  a.postedDaysAgo ≤ b.postedDaysAgo

/-- The "oldest" comparator ordering: descending `postedDaysAgo`. -/
def oldestRel (a b : SJob) : Prop :=
  b.postedDaysAgo ≤ a.postedDaysAgo

/-- The "match-score" comparator ordering: descending `matchScore ?? 0`. -/
def matchScoreRel (a b : SJob) : Prop :=
  b.matchScore.getD 0 ≤ a.matchScore.getD 0

/-- The "salary-high" comparator ordering: descending on the first integer
of the salary string. -/
def salaryHighRel (a b : SJob) : Prop :=
  getFirstNum b.salaryRange ≤ getFirstNum a.salaryRange

/-- The "salary-low" comparator ordering: ascending on the first integer of
the salary string. -/
def salaryLowRel (a b : SJob) : Prop :=
  getFirstNum a.salaryRange ≤ getFirstNum b.salaryRange

instance : DecidableRel latestRel :=
  fun a b => Nat.decLe a.postedDaysAgo b.postedDaysAgo

instance : DecidableRel oldestRel :=
  fun a b => Nat.decLe b.postedDaysAgo a.postedDaysAgo

instance : DecidableRel matchScoreRel :=
  fun a b => Nat.decLe (b.matchScore.getD 0) (a.matchScore.getD 0)

instance : DecidableRel salaryHighRel :=
  fun a b => Nat.decLe (getFirstNum b.salaryRange) (getFirstNum a.salaryRange)

instance : DecidableRel salaryLowRel :=
  fun a b => Nat.decLe (getFirstNum a.salaryRange) (getFirstNum b.salaryRange)

/-- The sorting stage of `filteredJobs` in `src/app/dashboard/page.tsx`.
`Array.prototype.sort` is stable, so each case is the stable sort by the
ordering its comparator expresses; an unknown key leaves the list as is. -/
def sortStage (sortKey : String) (l : List SJob) : List SJob :=
  match sortKey with
  | "latest" => List.insertionSort latestRel l
  | "oldest" => List.insertionSort oldestRel l
  | "match-score" => List.insertionSort matchScoreRel l
  | "salary-high" => List.insertionSort salaryHighRel l
  | "salary-low" => List.insertionSort salaryLowRel l
  | _ => l

/-- The full `filteredJobs` pipeline: filters, then sort. -/
def filteredJobs (showOnlyMatches : Bool) (prefs : Option Preferences)
    (f : Filters) (statuses : List (String × JobStatus)) (l : List SJob) :
    List SJob :=
  sortStage f.sort (applyFilters showOnlyMatches prefs f statuses l)

/-- A digest job: a job with its computed match score, from
`src/app/digest/page.tsx`. -/
structure DigestJob extends Job where
  matchScore : Nat
deriving DecidableEq, Repr

/-- `DigestData` of `src/app/digest/page.tsx`. -/
structure DigestData where
  date : String
  jobs : List DigestJob
  generatedAt : String
deriving DecidableEq, Repr

/-- The ordering expressed by the digest comparator
`(a, b) => b.matchScore !== a.matchScore ? b.matchScore - a.matchScore
: a.postedDaysAgo - b.postedDaysAgo`: `a` precedes `b` exactly when the
comparator is ≤ 0. -/
def digestRel (a b : DigestJob) : Prop :=
  (b.matchScore = a.matchScore ∧ a.postedDaysAgo ≤ b.postedDaysAgo) ∨
  (b.matchScore ≠ a.matchScore ∧ b.matchScore ≤ a.matchScore)

instance : DecidableRel digestRel :=
  fun _ _ => inferInstanceAs (Decidable (_ ∨ _))

/-- `generateDigest` of `src/app/digest/page.tsx`: score every job (0 when
preferences are absent), stable-sort by score descending then
`postedDaysAgo` ascending, take the first 10, stamp the date and time. -/
def generateDigest (jobs : List Job) (prefs : Option Preferences)
    (dateKey generatedAt : String) : DigestData :=
  let jobsWithScores := jobs.map (fun j =>
    ({ toJob := j,
       matchScore :=
         match prefs with
         | some p => calculateMatchScore j p
         | none => 0 } : DigestJob))
  let sortedJobs := List.insertionSort digestRel jobsWithScores
  { date := dateKey, jobs := sortedJobs.take 10,
    generatedAt := generatedAt }

/-- The per-day digest storage: `localStorage` keys to digest records. -/
def Storage := String → Option DigestData

/-- `localStorage.setItem(todayKey, JSON.stringify(newDigest))` of
`handleGenerateDigest`: overwrites the value under the key. -/
def setItem (st : Storage) (key : String) (v : DigestData) : Storage :=
  fun k => if k = key then some v else st k

/-- The strict ordering on `postedDaysAgo`, for uniqueness of sorted
lists. -/
def strictPostedRel (a b : SJob) : Prop :=
  a.postedDaysAgo < b.postedDaysAgo

instance : IsAntisymm SJob strictPostedRel :=
  ⟨fun _ _ h1 h2 => absurd h2 (Nat.lt_asymm h1)⟩

instance : IsTotal SJob latestRel :=
  ⟨fun a b => Nat.le_total a.postedDaysAgo b.postedDaysAgo⟩

instance : IsTrans SJob latestRel :=
  ⟨fun _ _ _ h1 h2 => Nat.le_trans h1 h2⟩

instance : IsTotal SJob oldestRel :=
  ⟨fun a b => Nat.le_total b.postedDaysAgo a.postedDaysAgo⟩

instance : IsTrans SJob oldestRel :=
  ⟨fun _ _ _ h1 h2 => Nat.le_trans h2 h1⟩

instance : IsTotal SJob salaryHighRel :=
  ⟨fun a b =>
    Nat.le_total (getFirstNum b.salaryRange) (getFirstNum a.salaryRange)⟩

instance : IsTrans SJob salaryHighRel :=
  ⟨fun _ _ _ h1 h2 => Nat.le_trans h2 h1⟩

instance : IsTotal DigestJob digestRel := by
  constructor
  intro a b
  unfold digestRel
  omega

instance : IsTrans DigestJob digestRel := by
  constructor
  intro a b c hab hbc
  unfold digestRel at hab hbc ⊢
  omega

/-- The example dashboard job list entries used as concrete witnesses. -/
def sjA : SJob :=
  { toJob := { jobBackend with
               id := "A", salaryRange := "₹15-25 LPA", postedDaysAgo := 1 },
    matchScore := some 55 }

/-- A second concrete dashboard job, lower salary and older posting. -/
def sjB : SJob :=
  { toJob := { jobBackend with
               id := "B", salaryRange := "₹10-18 LPA", postedDaysAgo := 4 },
    matchScore := none }

/-- A concrete filter state with location and mode filters active. -/
def fEx : Filters :=
  { keyword := "", location := "Bengaluru", mode := "Remote",
    experience := "", source := "", status := none, sort := "latest" }

/-- The location predicate of `fEx`, as `activePreds` produces it. -/
def pLoc : SJob → Bool :=
  fun j => j.location == "Bengaluru"

/-- The mode predicate of `fEx`, as `activePreds` produces it. -/
def pMode : SJob → Bool :=
  fun j => j.mode == "Remote"

/-- A first concrete digest record for the replacement witness. -/
def dW1 : DigestData :=
  { date := "2024-01-01", jobs := [], generatedAt := "g1" }

/-- A second concrete digest record for the replacement witness. -/
def dW2 : DigestData :=
  { date := "2024-01-01", jobs := [], generatedAt := "g2" }

/-- The empty digest storage. -/
def emptyStorage : Storage :=
  fun _ => none

theorem lookupStatus_assignStatus (m : List (String × JobStatus))
    (id : String) (s : JobStatus) :
    lookupStatus (assignStatus m id s) id = some s := by
  induction m with
  | nil => simp [assignStatus, lookupStatus]
  | cons p t ih =>
      by_cases h : p.1 = id
      · simp [assignStatus, lookupStatus, h]
      · simp [assignStatus, lookupStatus, h, ih]

theorem saveJobStatus_history_cases (st : StatusStore) (jobId : String)
    (s : JobStatus) (t c now : String) :
    (saveJobStatus st jobId s t c now).history = st.history ∨
      (saveJobStatus st jobId s t c now).history.length ≤ 20 := by
  unfold saveJobStatus
  split
  · exact Or.inl rfl
  · simp only
    split
    · exact Or.inl rfl
    · right
      simp [recordStatusHistory]

theorem runSaves_cons (st : StatusStore) (op : SaveOp) (ops : List SaveOp) :
    runSaves st (op :: ops) =
      runSaves (saveJobStatus st op.1 op.2.1 op.2.2.1 op.2.2.2.1 op.2.2.2.2)
        ops :=
  rfl

theorem runSaves_history_le (ops : List SaveOp) (st : StatusStore)
    (h : st.history.length ≤ 20) : (runSaves st ops).history.length ≤ 20 := by
  induction ops generalizing st with
  | nil => exact h
  | cons op ops ih =>
      rw [runSaves_cons]
      apply ih
      rcases saveJobStatus_history_cases st op.1 op.2.1 op.2.2.1 op.2.2.2.1
        op.2.2.2.2 with heq | hle
      · rw [heq]; exact h
      · exact hle

/-- C2: `set` with the currently stored status is a no-op (store returned
unchanged, so no history entry is appended); `set` with a differing
non-default status persists the new status and appends exactly one history
entry (the new entry becomes the head, over the previous history trimmed to
19). -/
theorem saveJobStatus_noop_or_appends_one (st : StatusStore) (jobId : String)
    (s : JobStatus) (t c now : String) :
    (lookupStatus st.statusMap jobId = some s →
      saveJobStatus st jobId s t c now = st) ∧
    (lookupStatus st.statusMap jobId ≠ some s → s ≠ JobStatus.notApplied →
      getJobStatus (saveJobStatus st jobId s t c now).statusMap jobId = s ∧
      (saveJobStatus st jobId s t c now).history =
        ({ jobId := jobId, jobTitle := t, company := c, status := s,
           changedAt := now } : StatusHistoryEntry) :: st.history.take 19) := by
  constructor
  · intro h
    unfold saveJobStatus
    rw [if_pos h]
  · intro hne hnd
    unfold saveJobStatus
    rw [if_neg hne]
    refine ⟨?_, ?_⟩
    · simp [getJobStatus, lookupStatus_assignStatus]
    · simp only [if_neg hnd]
      rfl

/-- Witness for C2 at a concrete store: setting the stored status again is a
no-op, and setting a differing non-default status persists it. -/
theorem saveJobStatus_noop_or_appends_one_witness :
    saveJobStatus ⟨[("a", JobStatus.applied)], []⟩ "a" JobStatus.applied
        "T" "C" "n" = ⟨[("a", JobStatus.applied)], []⟩ ∧
    getJobStatus (saveJobStatus ⟨[("a", JobStatus.applied)], []⟩ "a"
        JobStatus.rejected "T" "C" "n").statusMap "a" = JobStatus.rejected :=
  ⟨(saveJobStatus_noop_or_appends_one ⟨[("a", JobStatus.applied)], []⟩ "a"
      JobStatus.applied "T" "C" "n").1 (by decide),
   ((saveJobStatus_noop_or_appends_one ⟨[("a", JobStatus.applied)], []⟩ "a"
      JobStatus.rejected "T" "C" "n").2 (by decide) (by decide)).1⟩

/-- C3: starting from any store whose history is within the cap, no sequence
of `set` calls pushes the history past 20 entries; and the concrete run of 21
sequential distinct non-default changes leaves exactly 20 entries, newest
first (timestamps `"t21"` down to `"t2"`), with the oldest entry (`"t1"`)
evicted. -/
theorem statusHistory_capped_newestFirst :
    (∀ st ops, st.history.length ≤ 20 →
      (runSaves st ops).history.length ≤ 20) ∧
    (runSaves ⟨[], []⟩ ops21).history.length = 20 ∧
    (runSaves ⟨[], []⟩ ops21).history.map (fun e => e.changedAt) =
      (List.range 20).map (fun i => "t" ++ toString (21 - i)) ∧
    (runSaves ⟨[], []⟩ ops21).history.all
      (fun e => e.changedAt != "t1") = true := by
  refine ⟨fun st ops h => runSaves_history_le ops st h, ?_, ?_, ?_⟩
  · decide
  · decide
  · decide

/-- Witness for C3 at a concrete store and run. -/
theorem statusHistory_capped_newestFirst_witness :
    (runSaves ⟨[], []⟩ ops21).history.length ≤ 20 :=
  statusHistory_capped_newestFirst.1 ⟨[], []⟩ ops21 (by decide)

/-- C9: a stored value that fails to parse loads as the empty default (empty
map for statuses, empty list for history), an absent stored value also loads
as the default, and `getJobStatus` yields `"Not Applied"` for a job id absent
from the map. -/
theorem load_malformed_defaults (s : String)
    (parseM : String → Option (List (String × JobStatus)))
    (parseH : String → Option (List StatusHistoryEntry))
    (m : List (String × JobStatus)) (id : String) :
    (parseM s = none → loadJobStatuses (some s) parseM = []) ∧
    (parseH s = none → loadStatusHistory (some s) parseH = []) ∧
    loadJobStatuses none parseM = [] ∧
    loadStatusHistory none parseH = [] ∧
    (lookupStatus m id = none → getJobStatus m id = JobStatus.notApplied) := by
  refine ⟨?_, ?_, rfl, rfl, ?_⟩
  · intro h
    simp [loadJobStatuses, h]
  · intro h
    simp [loadStatusHistory, h]
  · intro h
    simp [getJobStatus, h]

/-- Witness for C9: a parse that rejects the malformed text `"not json"` makes
both loaders return the empty default, and an id absent from the empty map
reads back as `"Not Applied"`. -/
theorem load_malformed_defaults_witness :
    loadJobStatuses (some "not json") (fun _ => none) = [] ∧
    loadStatusHistory (some "not json") (fun _ => none) = [] ∧
    getJobStatus [] "x" = JobStatus.notApplied :=
  ⟨(load_malformed_defaults "not json" (fun _ => none) (fun _ => none) [] "x").1
      rfl,
   (load_malformed_defaults "not json" (fun _ => none) (fun _ => none) [] "x").2.1
      rfl,
   (load_malformed_defaults "not json" (fun _ => none) (fun _ => none) [] "x"
      ).2.2.2.2 rfl⟩

/-- C10: saving the default status `"Not Applied"` for a job id with no
stored entry writes an explicit map entry (the write is not skipped), leaves
the history unchanged, and does not change what `getJobStatus` returns for
that id. -/
theorem saveJobStatus_default_absent (st : StatusStore)
    (jobId t c now : String) (h : lookupStatus st.statusMap jobId = none) :
    lookupStatus (saveJobStatus st jobId JobStatus.notApplied t c
        now).statusMap jobId = some JobStatus.notApplied ∧
    (saveJobStatus st jobId JobStatus.notApplied t c now).history =
      st.history ∧
    getJobStatus (saveJobStatus st jobId JobStatus.notApplied t c
        now).statusMap jobId = getJobStatus st.statusMap jobId := by
  have hne : lookupStatus st.statusMap jobId ≠ some JobStatus.notApplied := by
    rw [h]; intro hc; cases hc
  unfold saveJobStatus
  rw [if_neg hne]
  refine ⟨lookupStatus_assignStatus _ _ _, by simp, ?_⟩
  simp [getJobStatus, lookupStatus_assignStatus, h]

/-- Witness for C10 at a concrete store with no entry for the job id. -/
theorem saveJobStatus_default_absent_witness :
    lookupStatus (saveJobStatus ⟨[("b", JobStatus.applied)], []⟩ "a"
        JobStatus.notApplied "T" "C" "n").statusMap "a" =
      some JobStatus.notApplied :=
  (saveJobStatus_default_absent ⟨[("b", JobStatus.applied)], []⟩ "a" "T" "C"
      "n" (by decide)).1

/-- C1: for every job and preferences, the match score is an integer in
`[0, 100]`, and identical inputs give identical scores. -/
theorem calculateMatchScore_range_deterministic (job : Job)
    (prefs : Preferences) :
    0 ≤ calculateMatchScore job prefs ∧
    calculateMatchScore job prefs ≤ 100 ∧
    (∀ job2 prefs2, job2 = job → prefs2 = prefs →
      calculateMatchScore job2 prefs2 = calculateMatchScore job prefs) := by
  refine ⟨Nat.zero_le _, Nat.min_le_left _ _, ?_⟩
  intro job2 prefs2 hj hp
  rw [hj, hp]

/-- Witness for C1 at the spec's example job and preferences. -/
theorem calculateMatchScore_range_deterministic_witness :
    calculateMatchScore jobBackend prefsMatching ≤ 100 ∧
    calculateMatchScore jobBackend prefsMatching =
      calculateMatchScore jobBackend prefsMatching :=
  ⟨(calculateMatchScore_range_deterministic jobBackend prefsMatching).2.1,
   (calculateMatchScore_range_deterministic jobBackend prefsMatching).2.2
      jobBackend prefsMatching rfl rfl⟩

/-- C8: the score is monotonic in the matching criteria: preferences with at
least one matching role keyword or skill score at least as high as
preferences with no matching keyword and no matching skill. -/
theorem calculateMatchScore_monotone (job : Job) (p1 p2 : Preferences)
    (h1 : 1 ≤ keywordMatches job p1 + skillMatches job p1)
    (h2 : keywordMatches job p2 = 0) (h3 : skillMatches job p2 = 0) :
    calculateMatchScore job p2 ≤ calculateMatchScore job p1 := by
  have hp2 : calculateMatchScore job p2 ≤ 20 := by
    unfold calculateMatchScore
    rw [h2, h3]
    by_cases hl : locationMatch job p2
    · simp [hl]
    · simp [hl]
  have hp1 : 20 ≤ calculateMatchScore job p1 := by
    unfold calculateMatchScore
    refine Nat.le_min.mpr ⟨by omega, ?_⟩
    have : 25 ≤ keywordMatches job p1 * 30 + skillMatches job p1 * 25 := by
      omega
    omega
  omega

/-- Witness for C8 at the spec's example: the matching preferences
(`roleKeywords:["backend"], skills:["Go"]`) score at least as high on the
Backend Engineer job as non-matching preferences. -/
theorem calculateMatchScore_monotone_witness :
    1 ≤ keywordMatches jobBackend prefsMatching +
        skillMatches jobBackend prefsMatching ∧
    keywordMatches jobBackend prefsNonMatching = 0 ∧
    skillMatches jobBackend prefsNonMatching = 0 ∧
    calculateMatchScore jobBackend prefsNonMatching ≤
      calculateMatchScore jobBackend prefsMatching :=
  ⟨by decide, by decide, by decide,
   calculateMatchScore_monotone jobBackend prefsMatching prefsNonMatching
      (by decide) (by decide) (by decide)⟩

theorem foldFilters_append (ps qs : List (SJob → Bool)) (l : List SJob) :
    foldFilters (ps ++ qs) l = foldFilters qs (foldFilters ps l) :=
  List.foldl_append _ _ _ _

theorem applyFilters_eq_foldFilters (s : Bool) (prefs : Option Preferences)
    (f : Filters) (statuses : List (String × JobStatus)) (l : List SJob) :
    applyFilters s prefs f statuses l =
      foldFilters (activePreds s prefs f statuses) l := by
  unfold applyFilters activePreds foldFilters
  cases f.status <;> split_ifs <;> rfl

theorem foldFilters_eq_filter_all (ps : List (SJob → Bool)) (l : List SJob) :
    foldFilters ps l = l.filter (fun x => ps.all (fun p => p x)) := by
  induction ps generalizing l with
  | nil => simp [foldFilters]
  | cons p ps ih =>
      have h1 : foldFilters (p :: ps) l = foldFilters ps (l.filter p) := rfl
      rw [h1, ih, List.filter_filter]
      apply List.filter_congr
      intro x _
      simp [List.all_cons, Bool.and_comm]

theorem all_of_perm (ps qs : List (SJob → Bool)) (h : ps.Perm qs)
    (x : SJob) : ps.all (fun p => p x) = qs.all (fun p => p x) := by
  induction h with
  | nil => rfl
  | cons p _ ih => simp [List.all_cons, ih]
  | swap p q _ =>
      simp only [List.all_cons]
      cases q x <;> cases p x <;> rfl
  | trans _ _ ih1 ih2 => rw [ih1, ih2]

/-- C5: the dashboard filters compose by logical AND: applying the active
filter predicates in any order yields the same result list, and every
element of the filtered result satisfies every active filter. -/
theorem filters_orderIndependent_sound (s : Bool) (prefs : Option Preferences)
    (f : Filters) (statuses : List (String × JobStatus)) (l : List SJob)
    (qs : List (SJob → Bool))
    (hq : qs.Perm (activePreds s prefs f statuses)) :
    foldFilters qs l = applyFilters s prefs f statuses l ∧
    (∀ j, j ∈ applyFilters s prefs f statuses l →
      ∀ q, q ∈ activePreds s prefs f statuses → q j = true) := by
  constructor
  · rw [applyFilters_eq_foldFilters, foldFilters_eq_filter_all,
      foldFilters_eq_filter_all]
    apply List.filter_congr
    intro x _
    exact all_of_perm qs (activePreds s prefs f statuses) hq x
  · intro j hj q hqmem
    rw [applyFilters_eq_foldFilters, foldFilters_eq_filter_all] at hj
    exact List.all_eq_true.mp (List.mem_filter.mp hj).2 q hqmem

/-- Witness for C5: with the location and mode filters active, applying them
in swapped order gives the same result on a concrete list, and the surviving
job satisfies the location filter. -/
theorem filters_orderIndependent_sound_witness :
    foldFilters [pMode, pLoc] [sjA] = applyFilters false none fEx [] [sjA] ∧
    pLoc sjA = true := by
  have hr : activePreds false none fEx [] = [pLoc, pMode] := rfl
  have hperm : ([pMode, pLoc] : List (SJob → Bool)).Perm
      (activePreds false none fEx []) := by
    rw [hr]
    exact List.Perm.swap pLoc pMode []
  refine ⟨(filters_orderIndependent_sound false none fEx [] [sjA]
      [pMode, pLoc] hperm).1, ?_⟩
  refine (filters_orderIndependent_sound false none fEx [] [sjA]
      [pMode, pLoc] hperm).2 sjA (by decide) pLoc ?_
  rw [hr]
  exact List.mem_cons_self _ _

/-- C6: on a list whose `postedDaysAgo` values are pairwise distinct, the
"latest" sort is exactly the reverse of the "oldest" sort. -/
theorem sortStage_latest_eq_reverse_oldest (l : List SJob)
    (h : l.Pairwise (fun a b => a.postedDaysAgo ≠ b.postedDaysAgo)) :
    sortStage "latest" l = (sortStage "oldest" l).reverse := by
  show List.insertionSort latestRel l =
    (List.insertionSort oldestRel l).reverse
  have hsymm : ∀ {x y : SJob}, x.postedDaysAgo ≠ y.postedDaysAgo →
      y.postedDaysAgo ≠ x.postedDaysAgo :=
    fun hxy hyx => hxy hyx.symm
  have permA : (List.insertionSort latestRel l).Perm l :=
    List.perm_insertionSort latestRel l
  have permB : (List.insertionSort oldestRel l).Perm l :=
    List.perm_insertionSort oldestRel l
  have permRB : (List.insertionSort oldestRel l).reverse.Perm l :=
    (List.reverse_perm _).trans permB
  have hdA : (List.insertionSort latestRel l).Pairwise
      (fun a b => a.postedDaysAgo ≠ b.postedDaysAgo) :=
    (List.Perm.pairwise_iff hsymm permA).mpr h
  have hdRB : (List.insertionSort oldestRel l).reverse.Pairwise
      (fun a b => a.postedDaysAgo ≠ b.postedDaysAgo) :=
    (List.Perm.pairwise_iff hsymm permRB).mpr h
  have hsA : (List.insertionSort latestRel l).Pairwise latestRel :=
    List.sorted_insertionSort latestRel l
  have hsB : (List.insertionSort oldestRel l).Pairwise oldestRel :=
    List.sorted_insertionSort oldestRel l
  have hsRB : (List.insertionSort oldestRel l).reverse.Pairwise
      (fun a b => oldestRel b a) :=
    List.pairwise_reverse.mpr hsB
  have hstrictA : (List.insertionSort latestRel l).Pairwise strictPostedRel :=
    (hdA.and hsA).imp (fun hab => Nat.lt_of_le_of_ne hab.2 hab.1)
  have hstrictRB : (List.insertionSort oldestRel l).reverse.Pairwise
      strictPostedRel :=
    (hdRB.and hsRB).imp (fun hab => Nat.lt_of_le_of_ne hab.2 hab.1)
  exact List.eq_of_perm_of_sorted (permA.trans permRB.symm) hstrictA
    hstrictRB

/-- Witness for C6 on a concrete two-job list with distinct
`postedDaysAgo`. -/
theorem sortStage_latest_eq_reverse_oldest_witness :
    sortStage "latest" [sjA, sjB] =
      (sortStage "oldest" [sjA, sjB]).reverse :=
  sortStage_latest_eq_reverse_oldest [sjA, sjB] (by decide)

theorem firstNumAux_of_no_digit (cs : List Char)
    (h : cs.all (fun c => !c.isDigit) = true) : firstNumAux cs = 0 := by
  induction cs with
  | nil => rfl
  | cons c t ih =>
      rw [List.all_cons, Bool.and_eq_true] at h
      have hc : c.isDigit = false := by
        cases hcd : c.isDigit
        · rfl
        · rw [hcd] at h
          simp at h
      unfold firstNumAux
      rw [hc]
      simp only [Bool.false_eq_true, if_false]
      exact ih h.2

/-- C7: the "salary-high" sort orders jobs by the first integer embedded in
the free-text salary string, descending; a string with no digit counts as 0;
and on the spec's example `"₹15-25 LPA"` (15) is ordered before
`"₹10-18 LPA"` (10). -/
theorem salaryHigh_sorts_by_first_integer (l : List SJob) (s : String)
    (h : s.data.all (fun c => !c.isDigit) = true) :
    (sortStage "salary-high" l).Pairwise salaryHighRel ∧
    getFirstNum s = 0 ∧
    getFirstNum "₹15-25 LPA" = 15 ∧
    getFirstNum "₹10-18 LPA" = 10 ∧
    sortStage "salary-high" [sjB, sjA] = [sjA, sjB] := by
  refine ⟨?_, firstNumAux_of_no_digit s.data h, by decide, by decide,
    by decide⟩
  exact List.sorted_insertionSort salaryHighRel l

/-- Witness for C7 with a digit-free string and a concrete job list. -/
theorem salaryHigh_sorts_by_first_integer_witness :
    getFirstNum "no digits here" = 0 ∧
    sortStage "salary-high" [sjB, sjA] = [sjA, sjB] :=
  ⟨(salaryHigh_sorts_by_first_integer [sjB, sjA] "no digits here"
      (by decide)).2.1,
   (salaryHigh_sorts_by_first_integer [sjB, sjA] "no digits here"
      (by decide)).2.2.2.2⟩

/-- C4: the digest holds at most 10 jobs; without preferences every digest
job scores 0; the digest list is ordered by match score descending with ties
broken by `postedDaysAgo` ascending; and writing the record for a day
replaces any earlier record under the same key (other keys untouched). -/
theorem generateDigest_top10_sorted_replaces (jobs : List Job)
    (prefs : Option Preferences) (dk ga : String) (store : Storage)
    (d1 d2 : DigestData) :
    (generateDigest jobs prefs dk ga).jobs.length ≤ 10 ∧
    (generateDigest jobs none dk ga).jobs.all
      (fun j => j.matchScore == 0) = true ∧
    (generateDigest jobs prefs dk ga).jobs.Pairwise
      (fun a b => b.matchScore < a.matchScore ∨
        (a.matchScore = b.matchScore ∧
          a.postedDaysAgo ≤ b.postedDaysAgo)) ∧
    setItem (setItem store dk d1) dk d2 = setItem store dk d2 ∧
    setItem store dk d2 dk = some d2 ∧
    (∀ k, k ≠ dk → setItem store dk d2 k = store k) := by
  refine ⟨?_, ?_, ?_, ?_, ?_, ?_⟩
  · simp only [generateDigest]
    rw [List.length_take]
    exact min_le_left _ _
  · rw [List.all_eq_true]
    intro j hj
    simp only [generateDigest] at hj
    have hmem := List.mem_of_mem_take hj
    rw [List.mem_insertionSort] at hmem
    obtain ⟨x, _, rfl⟩ := List.mem_map.mp hmem
    rfl
  · have hs : (List.insertionSort digestRel
        (jobs.map (fun j =>
          ({ toJob := j,
             matchScore :=
               match prefs with
               | some p => calculateMatchScore j p
               | none => 0 } : DigestJob)))).Pairwise digestRel :=
      List.sorted_insertionSort digestRel _
    have ht := List.Pairwise.sublist (List.take_sublist 10 _) hs
    refine ht.imp ?_
    intro a b hab
    rcases hab with ⟨heq, hle⟩ | ⟨hne, hle⟩
    · exact Or.inr ⟨heq.symm, hle⟩
    · exact Or.inl (Nat.lt_of_le_of_ne hle hne)
  · funext k
    by_cases hk : k = dk <;> simp [setItem, hk]
  · simp [setItem]
  · intro k hk
    simp [setItem, hk]

/-- Witness for C4 at a concrete job list, day key and storage. -/
theorem generateDigest_top10_sorted_replaces_witness :
    (generateDigest [jobBackend] none "2024-01-01" "g").jobs.length ≤ 10 ∧
    setItem emptyStorage "2024-01-01" dW2 "other" = none :=
  ⟨(generateDigest_top10_sorted_replaces [jobBackend] none "2024-01-01" "g"
      emptyStorage dW1 dW2).1,
   (generateDigest_top10_sorted_replaces [jobBackend] none "2024-01-01" "g"
      emptyStorage dW1 dW2).2.2.2.2.2 "other" (by decide)⟩

end JobTracker
